import Mathlib

/-!
Verification of the Nintendo Switch 2 controller driver's protocol engine
(hid-switch2.c / hid-switch2.h / switch2-usb.c), shallowly embedded in Lean.

Modelling conventions:
* C `uint8_t` / `uint16_t` / `uint32_t` values are `Nat`; where C truncation
  matters the reduction `% 2 ^ w` is written explicitly.
* C `int` arithmetic is `Int`; C integer division (truncation toward zero)
  is `Int.tdiv`.  A C division whose divisor can be zero is modelled with
  `Option`: `none` stands for the division fault.
* Inbound frames arrive through a raw pointer; they are modelled as a byte
  function `mem : Nat -> Nat` plus an explicit byte count `length`, so that
  reads past `length` (out-of-bounds reads of the real code) are visible as
  reads of unconstrained memory.
* Locks, RCU and the work queue are elided: the per-session mutex makes the
  command path sequential, which is what these functions assume.
-/

/-! ## Constants from hid-switch2.h / hid-switch2.c -/

def NS2_TRIGGER_RANGE : Int := 4095

def NS2_AXIS_MIN : Int := -32768

def NS2_AXIS_MAX : Int := 32767

def NS2_FLASH_ADDR_SERIAL : Nat := 0x13002

def NS2_FLASH_ADDR_FACTORY_PRIMARY_CALIB : Nat := 0x130a8

def NS2_FLASH_ADDR_FACTORY_SECONDARY_CALIB : Nat := 0x130e8

def NS2_FLASH_ADDR_FACTORY_TRIGGER_CALIB : Nat := 0x13140

def NS2_FLASH_ADDR_USER_PRIMARY_CALIB : Nat := 0x1fc040

def NS2_FLASH_ADDR_USER_SECONDARY_CALIB : Nat := 0x1fc080

def NS2_FLASH_SIZE_SERIAL : Nat := 0x10

def NS2_FLASH_SIZE_FACTORY_AXIS_CALIB : Nat := 9

def NS2_FLASH_SIZE_FACTORY_TRIGGER_CALIB : Nat := 2

def NS2_FLASH_SIZE_USER_AXIS_CALIB : Nat := 11

def NS2_USER_CALIB_MAGIC : Nat := 0xa1b2

def NS2_CMD_FLASH : Nat := 0x02

def NS2_CMD_FW_INFO : Nat := 0x10

def NS2_SUBCMD_FLASH_READ : Nat := 0x04

def NS2_SUBCMD_FW_INFO_GET : Nat := 0x1

/-- Controller types (enum switch2_ctlr_type); the driver stores the raw
byte from the firmware-info reply, so the model keeps `Nat`. -/
def NS2_CTLR_TYPE_JCL : Nat := 0x00

def NS2_CTLR_TYPE_JCR : Nat := 0x01

def NS2_CTLR_TYPE_PRO : Nat := 0x02

def NS2_CTLR_TYPE_GC : Nat := 0x03

/-- Init steps (enum switch2_init_step), with CONFIG_SWITCH2_FF enabled as
the Makefile does, so NS2_INIT_ENABLE_RUMBLE is present. -/
def NS2_INIT_STARTING : Nat := 0

def NS2_INIT_READ_SERIAL : Nat := 1

def NS2_INIT_READ_FACTORY_PRIMARY_CALIB : Nat := 2

def NS2_INIT_READ_FACTORY_SECONDARY_CALIB : Nat := 3

def NS2_INIT_READ_FACTORY_TRIGGER_CALIB : Nat := 4

def NS2_INIT_READ_USER_PRIMARY_CALIB : Nat := 5

def NS2_INIT_READ_USER_SECONDARY_CALIB : Nat := 6

def NS2_INIT_SET_FEATURE_MASK : Nat := 7

def NS2_INIT_ENABLE_FEATURES : Nat := 8

def NS2_INIT_GET_FIRMWARE_INFO : Nat := 9

def NS2_INIT_ENABLE_RUMBLE : Nat := 10

def NS2_INIT_GRIP_BUTTONS : Nat := 11

def NS2_INIT_SET_PLAYER_LEDS : Nat := 12

def NS2_INIT_INPUT : Nat := 13

def NS2_INIT_DONE : Nat := 14

/-- Linux error numbers, as the negative values the driver returns. -/
def EINVAL_RET : Int := -22

def ENOTCONN_RET : Int := -107

def RUMBLE_MAX : Nat := 450

def GC_RUMBLE_OFF : Nat := 0

def GC_RUMBLE_ON : Nat := 1

def GC_RUMBLE_STOP : Nat := 2

def U16_MAX : Nat := 65535

/-- The kernel's clamp macro on int: min(max(val, lo), hi). -/
def clampInt (val lo hi : Int) : Int := min (max val lo) hi

/-- switch2_ctlr_is_joycon from hid-switch2.h. -/
def switch2_ctlr_is_joycon (t : Nat) : Bool :=
  t = NS2_CTLR_TYPE_JCL || t = NS2_CTLR_TYPE_JCR

/-! ## Calibration data model (hid-switch2.h) -/

/-- struct switch2_axis_calibration: three uint16_t magnitudes. -/
structure switch2_axis_calibration where
  neutral : Nat
  negative : Nat
  positive : Nat
deriving DecidableEq

/-- struct switch2_stick_calibration. -/
structure switch2_stick_calibration where
  x : switch2_axis_calibration
  y : switch2_axis_calibration
deriving DecidableEq

/-- struct switch2_version_info, 12 bytes; `unk` keeps the little-endian
value of its 4 bytes, the dsp fields keep their raw bytes. -/
structure switch2_version_info where
  major : Nat
  minor : Nat
  patch : Nat
  ctlr_type : Nat
  unk : Nat
  dsp_major : Nat
  dsp_minor : Nat
  dsp_patch : Nat
  dsp_type : Nat
deriving DecidableEq

/-- switch2_parse_stick_calibration from hid-switch2.c: 9-byte block.
Returns `none` where the C function returns false (the all-0xFF
uncalibrated sentinel) and leaves the output untouched, otherwise the six
12-bit values unpacked exactly as the C assignments do. -/
def switch2_parse_stick_calibration (data : List Nat) : Option switch2_stick_calibration :=
  if data = List.replicate 9 0xFF then
    none
  else
    some
      { x :=
          { neutral := data.getD 0 0 ||| ((data.getD 1 0 &&& 0x0F) <<< 8)
            positive := data.getD 3 0 ||| ((data.getD 4 0 &&& 0x0F) <<< 8)
            negative := data.getD 6 0 ||| ((data.getD 7 0 &&& 0x0F) <<< 8) }
        y :=
          { neutral := (data.getD 1 0 >>> 4) ||| (data.getD 2 0 <<< 4)
            positive := (data.getD 4 0 >>> 4) ||| (data.getD 5 0 <<< 4)
            negative := (data.getD 7 0 >>> 4) ||| (data.getD 8 0 <<< 4) } }

/-! ## Controller session state (struct switch2_controller) -/

/-- The session fields the command path reads and writes.  `cfg` and `hdev`
model the two attachment handles as booleans (bound or not); `input`,
locks and rumble state live elsewhere. -/
structure switch2_controller where
  cfg : Bool
  hdev : Bool
  ctlr_type : Nat
  init_step : Nat
  serial : List Nat
  version : switch2_version_info
  stick_calib0 : switch2_stick_calibration
  stick_calib1 : switch2_stick_calibration
  lt_zero : Nat
  rt_zero : Nat
deriving DecidableEq

/-- The zeroed session produced by kzalloc in switch2_get_controller,
before either path attaches. -/
def switch2_controller_init : switch2_controller :=
  { cfg := false
    hdev := false
    ctlr_type := 0
    init_step := 0
    serial := List.replicate NS2_FLASH_SIZE_SERIAL 0
    version := { major := 0, minor := 0, patch := 0, ctlr_type := 0, unk := 0,
                 dsp_major := 0, dsp_minor := 0, dsp_patch := 0, dsp_type := 0 }
    stick_calib0 := { x := { neutral := 0, negative := 0, positive := 0 },
                      y := { neutral := 0, negative := 0, positive := 0 } }
    stick_calib1 := { x := { neutral := 0, negative := 0, positive := 0 },
                      y := { neutral := 0, negative := 0, positive := 0 } }
    lt_zero := 0
    rt_zero := 0 }

/-- switch2_handle_flash_read from hid-switch2.c.  `data` is the payload
slice starting at frame byte 16; the caller has checked that at least
`size` bytes of it are in the frame. -/
def switch2_handle_flash_read (ns2 : switch2_controller) (size : Nat) (address : Nat)
    (data : List Nat) : switch2_controller :=
  if address = NS2_FLASH_ADDR_SERIAL then
    if size ≠ NS2_FLASH_SIZE_SERIAL then ns2
    else { ns2 with serial := data.take size }
  else if address = NS2_FLASH_ADDR_FACTORY_PRIMARY_CALIB then
    if size ≠ NS2_FLASH_SIZE_FACTORY_AXIS_CALIB then ns2
    else
      match switch2_parse_stick_calibration data with
      | some c => { ns2 with stick_calib0 := c }
      | none => ns2
  else if address = NS2_FLASH_ADDR_FACTORY_SECONDARY_CALIB then
    if size ≠ NS2_FLASH_SIZE_FACTORY_AXIS_CALIB then ns2
    else
      match switch2_parse_stick_calibration data with
      | some c => { ns2 with stick_calib1 := c }
      | none => ns2
  else if address = NS2_FLASH_ADDR_FACTORY_TRIGGER_CALIB then
    if size ≠ NS2_FLASH_SIZE_FACTORY_TRIGGER_CALIB then ns2
    else if data.getD 0 0 ≠ 0xFF ∧ data.getD 1 0 ≠ 0xFF then
      { ns2 with lt_zero := data.getD 0 0, rt_zero := data.getD 1 0 }
    else ns2
  else if address = NS2_FLASH_ADDR_USER_PRIMARY_CALIB then
    if size ≠ NS2_FLASH_SIZE_USER_AXIS_CALIB then ns2
    else if data.getD 0 0 + 256 * data.getD 1 0 ≠ NS2_USER_CALIB_MAGIC then ns2
    else
      match switch2_parse_stick_calibration (data.drop 2) with
      | some c => { ns2 with stick_calib0 := c }
      | none => ns2
  else if address = NS2_FLASH_ADDR_USER_SECONDARY_CALIB then
    if size ≠ NS2_FLASH_SIZE_USER_AXIS_CALIB then ns2
    else if data.getD 0 0 + 256 * data.getD 1 0 ≠ NS2_USER_CALIB_MAGIC then ns2
    else
      match switch2_parse_stick_calibration (data.drop 2) with
      | some c => { ns2 with stick_calib1 := c }
      | none => ns2
  else ns2

/-! ## Initialization state machine (switch2_init_controller) -/

/-- What the body of the while-loop in switch2_init_controller does once
`init_step` has been incremented to `s`: either issue one command and
return (`send`), fall through to the next step without I/O (`skip`), or
register the input device at NS2_INIT_DONE when the data path is bound
(`input`).  The default branch of the C switch only warns and falls
through, hence `skip`. -/
inductive switch2_init_act where
  | send
  | skip
  | input
deriving DecidableEq

def switch2_init_action (ctlr_type : Nat) (hdev : Bool) (s : Nat) : switch2_init_act :=
  if s = NS2_INIT_READ_SERIAL then .send
  else if s = NS2_INIT_GET_FIRMWARE_INFO then .send
  else if s = NS2_INIT_READ_FACTORY_PRIMARY_CALIB then .send
  else if s = NS2_INIT_READ_FACTORY_SECONDARY_CALIB then
    if switch2_ctlr_is_joycon ctlr_type then .skip else .send
  else if s = NS2_INIT_READ_FACTORY_TRIGGER_CALIB then
    if ctlr_type ≠ NS2_CTLR_TYPE_GC then .skip else .send
  else if s = NS2_INIT_READ_USER_PRIMARY_CALIB then .send
  else if s = NS2_INIT_READ_USER_SECONDARY_CALIB then
    if switch2_ctlr_is_joycon ctlr_type then .skip else .send
  else if s = NS2_INIT_SET_FEATURE_MASK then .send
  else if s = NS2_INIT_ENABLE_FEATURES then .send
  else if s = NS2_INIT_ENABLE_RUMBLE then .send
  else if s = NS2_INIT_GRIP_BUTTONS then
    if ¬ switch2_ctlr_is_joycon ctlr_type then .skip else .send
  else if s = NS2_INIT_SET_PLAYER_LEDS then .send
  else if s = NS2_INIT_INPUT then .send
  else if s = NS2_INIT_DONE then
    if hdev then .input else .skip
  else .skip

/-- The while-loop of switch2_init_controller, with fuel for termination
(NS2_INIT_DONE bounds the number of iterations).  Returns the new state,
the return value, and the steps at which a command was sent.  `sendRet`
gives the transport's result for the command a step issues (the driver
returns it unchanged and does not inspect it), `inputRet` the result of
switch2_init_input. -/
def switch2_init_loop (sendRet : Nat → Int) (inputRet : Int) :
    Nat → switch2_controller → switch2_controller × Int × List Nat
  | 0, ns2 => (ns2, 0, [])
  | fuel + 1, ns2 =>
    if ns2.init_step < NS2_INIT_DONE then
      let ns2' := { ns2 with init_step := ns2.init_step + 1 }
      match switch2_init_action ns2'.ctlr_type ns2'.hdev ns2'.init_step with
      | .send => (ns2', sendRet ns2'.init_step, [ns2'.init_step])
      | .skip => switch2_init_loop sendRet inputRet fuel ns2'
      | .input => (ns2', inputRet, [])
    else (ns2, 0, [])

/-- switch2_init_controller from hid-switch2.c. -/
def switch2_init_controller (sendRet : Nat → Int) (inputRet : Int)
    (ns2 : switch2_controller) : switch2_controller × Int × List Nat :=
  if ns2.init_step = NS2_INIT_DONE then (ns2, 0, [])
  else if ¬ ns2.cfg then (ns2, ENOTCONN_RET, [])
  else switch2_init_loop sendRet inputRet (NS2_INIT_DONE + 1) ns2

/-- Iterated advance calls, for the across-any-sequence claims. -/
def switch2_init_iter (sendRet : Nat → Int) (inputRet : Int) :
    Nat → switch2_controller → switch2_controller
  | 0, ns2 => ns2
  | n + 1, ns2 =>
    switch2_init_iter sendRet inputRet n (switch2_init_controller sendRet inputRet ns2).1

/-! ## Inbound command decoding (switch2_receive_command) -/

/-- The advance of the init machine that switch2_receive_command performs
before dispatching, once the frame passed the 8-byte header check. -/
def switch2_receive_pre_init (sendRet : Nat → Int) (inputRet : Int)
    (ns2 : switch2_controller) : switch2_controller :=
  if ns2.init_step < NS2_INIT_DONE then
    (switch2_init_controller sendRet inputRet ns2).1
  else ns2

/-- switch2_receive_command from hid-switch2.c.  The frame is the raw
transfer buffer: byte function `mem` with `length` valid bytes; indices
past `length` read whatever the adjacent memory holds, exactly like the C
pointer does.  Returns the updated session and the int result. -/
def switch2_receive_command (sendRet : Nat → Int) (inputRet : Int) (mem : Nat → Nat)
    (length : Nat) (ns2 : switch2_controller) : switch2_controller × Int :=
  if length < 8 then (ns2, EINVAL_RET)
  else
    let ns2 := switch2_receive_pre_init sendRet inputRet ns2
    let command := mem 0
    let subcommand := mem 3
    if command = NS2_CMD_FLASH then
      if subcommand = NS2_SUBCMD_FLASH_READ then
        if length < 16 then (ns2, EINVAL_RET)
        else
          let read_size := mem 8
          let read_address :=
            mem 12 + 256 * mem 13 + 65536 * mem 14 + 16777216 * mem 15
          if length < read_size + 16 then (ns2, EINVAL_RET)
          else
            (switch2_handle_flash_read ns2 read_size read_address
              ((List.range read_size).map fun i => mem (16 + i)), 0)
      else (ns2, 0)
    else if command = NS2_CMD_FW_INFO then
      if subcommand = NS2_SUBCMD_FW_INFO_GET then
        if length < 12 then (ns2, EINVAL_RET)
        else
          let v : switch2_version_info :=
            { major := mem 8, minor := mem 9, patch := mem 10, ctlr_type := mem 11,
              unk := mem 12 + 256 * mem 13 + 65536 * mem 14 + 16777216 * mem 15,
              dsp_major := mem 16, dsp_minor := mem 17, dsp_patch := mem 18,
              dsp_type := mem 19 }
          ({ ns2 with version := v, ctlr_type := v.ctlr_type }, 0)
      else (ns2, 0)
    else (ns2, 0)

/-! ## Report decoder transforms (hid-switch2.c) -/

/-- switch2_report_axis from hid-switch2.c.  `calib = none` models a NULL
calibration pointer; `value` is the raw unsigned sample as the C int it
is promoted to.  Returns the value passed to input_report_abs. -/
def switch2_report_axis (calib : Option switch2_axis_calibration) (value : Int)
    (negate : Bool) : Int :=
  let value :=
    match calib with
    | some c =>
      if c.neutral ≠ 0 ∧ c.negative ≠ 0 ∧ c.positive ≠ 0 then
        let v := (value - (c.neutral : Int)) * (NS2_AXIS_MAX + 1)
        if v < 0 then v.tdiv (c.negative : Int) else v.tdiv (c.positive : Int)
      else (value - 2048) * 16
    | none => (value - 2048) * 16
  let value := if negate then -value else value
  clampInt value NS2_AXIS_MIN NS2_AXIS_MAX

/-- switch2_report_trigger from hid-switch2.c.  `zero` and `data` are the
uint8_t arguments.  The C expression divides by `232 - zero` with no
guard; `none` models the division fault that occurs when `zero = 232`. -/
def switch2_report_trigger (zero : Nat) (data : Nat) : Option Int :=
  if (232 : Int) - (zero : Int) = 0 then none
  else
    some (clampInt
      (((NS2_TRIGGER_RANGE + 1) * ((data : Int) - (zero : Int))).tdiv
        ((232 : Int) - (zero : Int)))
      0 NS2_TRIGGER_RANGE)

/-- The axis transform as §4.5 of the specification words it: calibrated
piecewise-linear normalization when all three calibration values are
nonzero, the fixed linear fallback otherwise, sign flip before clamping,
clamped to [-32768, 32767]. -/
def report_axis_spec (calib : Option switch2_axis_calibration) (raw : Int)
    (negate : Bool) : Int :=
  let v :=
    match calib with
    | some c =>
      if c.neutral ≠ 0 ∧ c.negative ≠ 0 ∧ c.positive ≠ 0 then
        if (raw - (c.neutral : Int)) * 32768 < 0 then
          ((raw - (c.neutral : Int)) * 32768).tdiv (c.negative : Int)
        else
          ((raw - (c.neutral : Int)) * 32768).tdiv (c.positive : Int)
      else (raw - 2048) * 16
    | none => (raw - 2048) * 16
  clampInt (if negate then -v else v) (-32768) 32767

/-- A stored axis calibration that is absent in the sense of §3 of the
specification: all three values zero. -/
def axis_calib_absent (c : switch2_axis_calibration) : Prop :=
  c.neutral = 0 ∧ c.negative = 0 ∧ c.positive = 0

/-- A stored axis calibration that is fully present: all three values
nonzero (the condition switch2_report_axis requires before applying it). -/
def axis_calib_present (c : switch2_axis_calibration) : Prop :=
  c.neutral ≠ 0 ∧ c.negative ≠ 0 ∧ c.positive ≠ 0

instance (c : switch2_axis_calibration) : Decidable (axis_calib_absent c) := by
  unfold axis_calib_absent; infer_instance

instance (c : switch2_axis_calibration) : Decidable (axis_calib_present c) := by
  unfold axis_calib_present; infer_instance

/-- Packing of six 12-bit values into the 9-byte stick-calibration block,
following the layout §4.4 of the specification describes (each pair of
values packed as 1.5 bytes, decode order x-neutral, y-neutral, x-positive,
y-positive, x-negative, y-negative).  Inverse of the unpacking done by
switch2_parse_stick_calibration. -/
def synth_stick_calibration (xn yn xp yp xng yng : Nat) : List Nat :=
  [xn &&& 0xFF, (xn >>> 8) ||| ((yn &&& 0x0F) <<< 4), yn >>> 4,
   xp &&& 0xFF, (xp >>> 8) ||| ((yp &&& 0x0F) <<< 4), yp >>> 4,
   xng &&& 0xFF, (xng >>> 8) ||| ((yng &&& 0x0F) <<< 4), yng >>> 4]

/-! ## Rumble encoder (switch2_play_effect / switch2_rumble_work) -/

/-- The rumble fields of struct switch2_controller guarded by rumble_lock.
The C union of switch2_hd_rumble and switch2_erm_rumble is split into
separate fields (the controller type selects which half is used); the
constant hi_freq/lo_freq fields do not influence the claims and are
omitted from the packet abstraction.  `pending` models whether
rumble_work is scheduled on the work queue; `last_rumble_work` is the
timestamp field whose zero value means "not currently active". -/
structure switch2_rumble_state where
  ctlr_type : Nat
  hdev : Bool
  hd_hi_amp : Nat
  hd_lo_amp : Nat
  sd_amplitude : Nat
  sd_error : Nat
  rumble_seq : Nat
  last_rumble_work : Nat
  pending : Bool
deriving DecidableEq

/-- One emitted rumble output report, abstracted to the bytes the claims
are about: the GameCube duty-cycle command byte (buffer[2]) or the two HD
amplitudes encoded into the waveform fields. -/
inductive switch2_rumble_packet where
  | gc (mode : Nat)
  | hd (hi_amp lo_amp : Nat)
deriving DecidableEq

/-- switch2_play_effect from hid-switch2.c, for an FF_RUMBLE effect.
`strong` and `weak` are the u16 magnitudes (reduced mod 2^16 as the u16
struct fields are).  Schedules rumble_work with zero delay. -/
def switch2_play_effect (strong weak : Nat) (st : switch2_rumble_state) :
    switch2_rumble_state :=
  let strong := strong % 65536
  let weak := weak % 65536
  if st.ctlr_type = NS2_CTLR_TYPE_GC then
    { st with sd_amplitude := max strong (weak >>> 1), pending := true }
  else
    { st with
      hd_hi_amp := ((weak * RUMBLE_MAX) >>> 16) % 1024,
      hd_lo_amp := ((strong * RUMBLE_MAX) >>> 16) % 1024,
      pending := true }

/-- switch2_rumble_work from hid-switch2.c: one execution of the work
item.  `now` is jiffies_to_msecs(get_jiffies_64()) at entry.  Returns the
post state and the packet handed to hid_hw_output_report (none when the
data-path handle is unbound, in which case the work also cancels its own
reschedule). -/
def switch2_rumble_work (now : Nat) (st : switch2_rumble_state) :
    switch2_rumble_state × Option switch2_rumble_packet :=
  let (st, packet, active) :=
    if st.ctlr_type = NS2_CTLR_TYPE_GC then
      if st.sd_amplitude = 0 then
        ({ st with sd_error := 0 }, switch2_rumble_packet.gc GC_RUMBLE_STOP, false)
      else if st.sd_error < st.sd_amplitude then
        ({ st with sd_error := (st.sd_error + (U16_MAX - st.sd_amplitude)) % 65536 },
         switch2_rumble_packet.gc GC_RUMBLE_ON, true)
      else
        ({ st with sd_error := st.sd_error - st.sd_amplitude },
         switch2_rumble_packet.gc GC_RUMBLE_OFF, true)
    else
      (st, switch2_rumble_packet.hd st.hd_hi_amp st.hd_lo_amp,
       st.hd_hi_amp ≠ 0 ∨ st.hd_lo_amp ≠ 0)
  let st := { st with rumble_seq := (st.rumble_seq + 1) % 16 }
  let st :=
    if active then
      { st with
        last_rumble_work := if st.last_rumble_work = 0 then now
                            else st.last_rumble_work + 4,
        pending := true }
    else
      { st with last_rumble_work := 0, pending := false }
  if ¬ st.hdev then ({ st with pending := false }, none)
  else (st, some packet)

/-- The events that drive the rumble encoder: a force-feedback request
(set_intensity) or the work queue running the scheduled work item.  A
tick only does something when the work is actually scheduled. -/
inductive switch2_rumble_event where
  | set_intensity (strong weak : Nat)
  | tick (now : Nat)

def switch2_rumble_step (st : switch2_rumble_state) (e : switch2_rumble_event) :
    switch2_rumble_state × List switch2_rumble_packet :=
  match e with
  | .set_intensity strong weak => (switch2_play_effect strong weak st, [])
  | .tick now =>
    if st.pending then
      let (st', p) := switch2_rumble_work now st
      (st', p.toList)
    else (st, [])

def switch2_rumble_run (st : switch2_rumble_state) :
    List switch2_rumble_event → switch2_rumble_state × List switch2_rumble_packet
  | [] => (st, [])
  | e :: rest =>
    let (st1, ps1) := switch2_rumble_step st e
    let (st2, ps2) := switch2_rumble_run st1 rest
    (st2, ps1 ++ ps2)

/-- Rumble state of a freshly probed GameCube controller: kzalloc zeroes
everything and switch2_probe skips the hi_freq/lo_freq preset for the GC
type; the HID data path is bound. -/
def switch2_gc_rumble_init : switch2_rumble_state :=
  { ctlr_type := NS2_CTLR_TYPE_GC
    hdev := true
    hd_hi_amp := 0
    hd_lo_amp := 0
    sd_amplitude := 0
    sd_error := 0
    rumble_seq := 0
    last_rumble_work := 0
    pending := false }

/-! ## Concrete inputs used by witnesses and counterexamples -/

/-- A transport whose sends all succeed (hid/usb submission returning 0). -/
def sendRet0 : Nat → Int := fun _ => 0

/-- A frame of all-zero bytes. -/
def mem_zero : Nat → Nat := fun _ => 0

/-- A session whose initialization has completed. -/
def switch2_controller_done : switch2_controller :=
  { switch2_controller_init with cfg := true, init_step := NS2_INIT_DONE }

/-- A 12-byte firmware-info reply frame: 8-byte header (command 0x10,
subcommand 1) followed by only 4 payload bytes, 8 bytes short of a full
struct switch2_version_info. -/
def c2_frame : List Nat := [0x10, 0, 0, 1, 0, 4, 0, 0, 7, 7, 7, 7]

/-- The 12-byte frame with the adjacent out-of-frame memory reading 0. -/
def c2_mem_a : Nat → Nat := fun i => c2_frame.getD i 0

/-- The same 12-byte frame with the adjacent out-of-frame memory reading 9. -/
def c2_mem_b : Nat → Nat := fun i => if i < 12 then c2_frame.getD i 0 else 9

/-- A frame whose header declares a flash read but whose byte 8 declares a
read size of 50 while only 20 bytes are present. -/
def c7_mem : Nat → Nat := fun i =>
  if i = 0 then NS2_CMD_FLASH else if i = 3 then NS2_SUBCMD_FLASH_READ
  else if i = 8 then 50 else 0

/-- A complete 25-byte flash-read reply for the factory primary stick
calibration (address 0x130a8, little-endian at bytes 12..15, size 9 at
byte 8) whose data block decodes to x-neutral 0, x-positive 1,
x-negative 1: a partially-zero calibration. -/
def c8_frame : List Nat :=
  [0x02, 0, 0, 0x04, 0, 0, 0, 0,
   9, 0, 0, 0, 0xa8, 0x30, 0x01, 0x00,
   0, 0, 0, 1, 0, 0, 1, 0, 0]

def c8_mem : Nat → Nat := fun i => c8_frame.getD i 0

/-- An Active GameCube rumble state: amplitude 1000, a packet train in
progress (nonzero last-emission timestamp, work scheduled). -/
def c9_active : switch2_rumble_state :=
  { ctlr_type := NS2_CTLR_TYPE_GC
    hdev := true
    hd_hi_amp := 0
    hd_lo_amp := 0
    sd_amplitude := 1000
    sd_error := 0
    rumble_seq := 0
    last_rumble_work := 5
    pending := true }

/-- Discriminator for rumble events that are work-queue ticks rather than
force-feedback requests. -/
def rumble_event_is_tick : switch2_rumble_event → Bool
  | .tick _ => true
  | .set_intensity _ _ => false

/-! ## Bit-packing helper lemmas -/

theorem lor_shift_eq_add (k a b : Nat) (h : a < 2 ^ k) : a ||| (b <<< k) = a + 2 ^ k * b := by
  rw [Nat.lor_comm, Nat.shiftLeft_eq, Nat.mul_comm b (2 ^ k), ← Nat.mul_add_lt_is_or h,
    Nat.add_comm]

theorem and_255_eq_mod (x : Nat) : x &&& 0xFF = x % 256 := by
  have h := Nat.and_pow_two_sub_one_eq_mod x 8
  norm_num at h
  exact h

theorem and_15_eq_mod (x : Nat) : x &&& 0x0F = x % 16 := by
  have h := Nat.and_pow_two_sub_one_eq_mod x 4
  norm_num at h
  exact h

theorem shiftRight_8_eq_div (x : Nat) : x >>> 8 = x / 256 := by
  have h := Nat.shiftRight_eq_div_pow x 8
  norm_num at h
  exact h

theorem shiftRight_4_eq_div (x : Nat) : x >>> 4 = x / 16 := by
  have h := Nat.shiftRight_eq_div_pow x 4
  norm_num at h
  exact h

/-- Unpacking the low 12-bit value of a 1.5-byte pair, in arithmetic form. -/
theorem unpack_lo_eq (d e : Nat) (hd : d < 256) :
    d ||| ((e &&& 0x0F) <<< 8) = d + 256 * (e % 16) := by
  rw [and_15_eq_mod, lor_shift_eq_add 8 d (e % 16) (by omega)]
  norm_num

/-- Unpacking the high 12-bit value of a 1.5-byte pair, in arithmetic form. -/
theorem unpack_hi_eq (d e : Nat) (hd : d < 256) :
    (d >>> 4) ||| (e <<< 4) = d / 16 + 16 * e := by
  rw [shiftRight_4_eq_div, lor_shift_eq_add 4 (d / 16) e (by omega)]
  norm_num

/-- Round trip of one packed pair of 12-bit values through the 1.5-byte
layout used by switch2_parse_stick_calibration. -/
theorem unpack_pack_pair (v w : Nat) (hv : v < 4096) (hw : w < 4096) :
    (v &&& 0xFF) ||| ((((v >>> 8) ||| ((w &&& 0x0F) <<< 4)) &&& 0x0F) <<< 8) = v ∧
    (((v >>> 8) ||| ((w &&& 0x0F) <<< 4)) >>> 4) ||| ((w >>> 4) <<< 4) = w := by
  have hmid : (v >>> 8) ||| ((w &&& 0x0F) <<< 4) = v / 256 + 16 * (w % 16) := by
    rw [shiftRight_8_eq_div, and_15_eq_mod, lor_shift_eq_add 4 (v / 256) (w % 16) (by omega)]
    norm_num
  constructor
  · rw [and_255_eq_mod, hmid, and_15_eq_mod,
      show (v / 256 + 16 * (w % 16)) % 16 = v / 256 from by omega,
      lor_shift_eq_add 8 (v % 256) (v / 256) (by omega)]
    omega
  · rw [hmid, shiftRight_4_eq_div, shiftRight_4_eq_div,
      show (v / 256 + 16 * (w % 16)) / 16 = w % 16 from by omega,
      lor_shift_eq_add 4 (w % 16) (w / 16) (by omega)]
    omega

/-- If all three bytes of a packed pair read 0xFF, both 12-bit values were
4095. -/
theorem pack_all_ff (v w : Nat) (hv : v < 4096) (hw : w < 4096)
    (h0 : v &&& 0xFF = 0xFF) (h1 : (v >>> 8) ||| ((w &&& 0x0F) <<< 4) = 0xFF)
    (h2 : w >>> 4 = 0xFF) : v = 4095 ∧ w = 4095 := by
  rw [and_255_eq_mod] at h0
  rw [shiftRight_8_eq_div, and_15_eq_mod,
    lor_shift_eq_add 4 (v / 256) (w % 16) (by omega)] at h1
  rw [shiftRight_4_eq_div] at h2
  omega

/-- Clamping produces a value inside the (ordered) bounds. -/
theorem clampInt_mem (v lo hi : Int) (h : lo ≤ hi) :
    lo ≤ clampInt v lo hi ∧ clampInt v lo hi ≤ hi := by
  unfold clampInt
  omega

/-! ## Claim theorems -/

/-- Claim C1: the trigger transform computes
(4095+1) * (raw - zero) / (232 - zero) clamped to [0, 4095] and is claimed
to guard the division when zero = 232.  The code has no guard: at
zero = 232 the divisor 232 - zero is 0 and the kernel faults (modelled as
`none`) instead of saturating to 4095; away from 232 the clamped formula
holds, as the second conjunct illustrates at zero = 0, raw = 255. -/
theorem switch2_report_trigger_div_by_zero :
    switch2_report_trigger 232 100 = none ∧
    switch2_report_trigger 0 255 = some 4095 := by decide

/-- Claim C2: a firmware-info reply is claimed to update the version and
controller-type fields only when the frame holds the full 8-byte header
plus the whole 12-byte version structure (20 bytes).  The code checks
only `length < sizeof(version)`, i.e. 12, and then copies frame bytes
8..19: for a 12-byte frame the copy reads 8 bytes beyond the frame.
Two deliveries of the identical 12-byte frame (the two memories agree on
every in-frame byte) are both accepted and store different version data,
so the stored fields depend on out-of-frame memory. -/
theorem switch2_receive_command_fw_info_oob :
    ((List.range 12).map c2_mem_a = (List.range 12).map c2_mem_b) ∧
    (switch2_receive_command sendRet0 0 c2_mem_a 12 switch2_controller_init).2 = 0 ∧
    (switch2_receive_command sendRet0 0 c2_mem_b 12 switch2_controller_init).2 = 0 ∧
    (switch2_receive_command sendRet0 0 c2_mem_a 12 switch2_controller_init).1.version ≠
      (switch2_receive_command sendRet0 0 c2_mem_b 12 switch2_controller_init).1.version := by
  decide

/-- Claim C3, counterexample: the round-trip part fails at the six values
4095, 4095, 4095, 4095, 4095, 4095: the synthesized block is exactly the
nine-0xFF uncalibrated sentinel, so parsing returns absent instead of
recovering the values. -/
theorem parse_stick_roundtrip_sentinel_cex :
    synth_stick_calibration 4095 4095 4095 4095 4095 4095 = List.replicate 9 0xFF ∧
    switch2_parse_stick_calibration
      (synth_stick_calibration 4095 4095 4095 4095 4095 4095) = none := by decide

/-- Claim C8, counterexample: in the session reached from the freshly
created session by one well-formed factory-primary-calibration flash
reply (frame c8_frame), the stored x-axis calibration has neutral 0 but
positive and negative 1: neither all zero nor all nonzero, refuting the
claimed stored-state invariant. -/
theorem stored_stick_calib_partial_cex :
    ¬ (axis_calib_absent
        (switch2_receive_command sendRet0 0 c8_mem 25 switch2_controller_init).1.stick_calib0.x ∨
       axis_calib_present
        (switch2_receive_command sendRet0 0 c8_mem 25 switch2_controller_init).1.stick_calib0.x) := by
  decide

/-- Claim C9, counterexample: from an Active GameCube rumble state, after
set_intensity(0,0) the next tick does transition to Idle (timestamp
cleared, nothing scheduled), but a further set_intensity(0,0) call - not
a nonzero one - makes the following tick emit another (stop) packet, so
packets are emitted again before any nonzero set_intensity call. -/
theorem rumble_zero_then_tick_emits_cex :
    (switch2_rumble_run c9_active
      [.set_intensity 0 0, .tick 6]).1.last_rumble_work = 0 ∧
    (switch2_rumble_run c9_active
      [.set_intensity 0 0, .tick 6]).1.pending = false ∧
    (switch2_rumble_run (switch2_rumble_run c9_active
        [.set_intensity 0 0, .tick 6]).1
      [.set_intensity 0 0, .tick 12]).2 ≠ [] := by decide

/-- Claim C3 (amended): parsing nine 0xFF bytes returns absent; every
other 9-byte input parses to present with the six 12-bit values unpacked
in decode order x-neutral, y-neutral, x-positive, y-positive, x-negative,
y-negative (low value plus 256 times the low nibble of the middle byte;
high nibble of the middle byte plus 16 times the high byte), each below
4096; and a block synthesized from six 12-bit values parses back to
exactly those values UNLESS all six equal 4095, in which case the block
is the uncalibrated sentinel and parsing returns absent. -/
theorem switch2_parse_stick_calibration_amended :
    switch2_parse_stick_calibration (List.replicate 9 0xFF) = none ∧
    (∀ d0 d1 d2 d3 d4 d5 d6 d7 d8 : Nat,
      d0 < 256 → d1 < 256 → d2 < 256 → d3 < 256 → d4 < 256 → d5 < 256 →
      d6 < 256 → d7 < 256 → d8 < 256 →
      [d0, d1, d2, d3, d4, d5, d6, d7, d8] ≠ List.replicate 9 0xFF →
      switch2_parse_stick_calibration [d0, d1, d2, d3, d4, d5, d6, d7, d8] =
        some { x := { neutral := d0 + 256 * (d1 % 16),
                      negative := d6 + 256 * (d7 % 16),
                      positive := d3 + 256 * (d4 % 16) },
               y := { neutral := d1 / 16 + 16 * d2,
                      negative := d7 / 16 + 16 * d8,
                      positive := d4 / 16 + 16 * d5 } } ∧
      d0 + 256 * (d1 % 16) < 4096 ∧ d1 / 16 + 16 * d2 < 4096 ∧
      d3 + 256 * (d4 % 16) < 4096 ∧ d4 / 16 + 16 * d5 < 4096 ∧
      d6 + 256 * (d7 % 16) < 4096 ∧ d7 / 16 + 16 * d8 < 4096) ∧
    (∀ xn yn xp yp xng yng : Nat,
      xn < 4096 → yn < 4096 → xp < 4096 → yp < 4096 → xng < 4096 → yng < 4096 →
      ¬ (xn = 4095 ∧ yn = 4095 ∧ xp = 4095 ∧ yp = 4095 ∧ xng = 4095 ∧ yng = 4095) →
      switch2_parse_stick_calibration (synth_stick_calibration xn yn xp yp xng yng) =
        some { x := { neutral := xn, negative := xng, positive := xp },
               y := { neutral := yn, negative := yng, positive := yp } }) := by
  refine ⟨by decide, ?_, ?_⟩
  · intro d0 d1 d2 d3 d4 d5 d6 d7 d8 h0 h1 h2 h3 h4 h5 h6 h7 h8 hne
    refine ⟨?_, by omega, by omega, by omega, by omega, by omega, by omega⟩
    simp only [switch2_parse_stick_calibration, if_neg hne, Option.some.injEq,
      switch2_stick_calibration.mk.injEq, switch2_axis_calibration.mk.injEq,
      List.getD_cons_zero, List.getD_cons_succ]
    exact ⟨⟨unpack_lo_eq d0 d1 h0, unpack_lo_eq d6 d7 h6, unpack_lo_eq d3 d4 h3⟩,
           unpack_hi_eq d1 d2 h1, unpack_hi_eq d7 d8 h7, unpack_hi_eq d4 d5 h4⟩
  · intro xn yn xp yp xng yng hxn hyn hxp hyp hxng hyng hne
    have hsentinel :
        synth_stick_calibration xn yn xp yp xng yng ≠ List.replicate 9 0xFF := by
      intro hEq
      simp only [synth_stick_calibration,
        show (List.replicate 9 0xFF : List Nat) =
          [0xFF, 0xFF, 0xFF, 0xFF, 0xFF, 0xFF, 0xFF, 0xFF, 0xFF] from rfl,
        List.cons.injEq, and_true] at hEq
      obtain ⟨e0, e1, e2, e3, e4, e5, e6, e7, e8⟩ := hEq
      have p1 := pack_all_ff xn yn hxn hyn e0 e1 e2
      have p2 := pack_all_ff xp yp hxp hyp e3 e4 e5
      have p3 := pack_all_ff xng yng hxng hyng e6 e7 e8
      exact hne ⟨p1.1, p1.2, p2.1, p2.2, p3.1, p3.2⟩
    simp only [synth_stick_calibration] at hsentinel ⊢
    simp only [switch2_parse_stick_calibration, if_neg hsentinel, Option.some.injEq,
      switch2_stick_calibration.mk.injEq, switch2_axis_calibration.mk.injEq,
      List.getD_cons_zero, List.getD_cons_succ]
    exact ⟨⟨(unpack_pack_pair xn yn hxn hyn).1, (unpack_pack_pair xng yng hxng hyng).1,
            (unpack_pack_pair xp yp hxp hyp).1⟩,
           (unpack_pack_pair xn yn hxn hyn).2, (unpack_pack_pair xng yng hxng hyng).2,
           (unpack_pack_pair xp yp hxp hyp).2⟩

/-- Witness for the amended C3 theorem at concrete inputs: the 9-byte
block starting with 1 parses as present, and the block synthesized from
1, 2, 3, 4, 5, 6 parses back to exactly those six values. -/
theorem switch2_parse_stick_calibration_amended_witness :
    switch2_parse_stick_calibration [1, 0, 0, 0, 0, 0, 0, 0, 0] =
      some { x := { neutral := 1, negative := 0, positive := 0 },
             y := { neutral := 0, negative := 0, positive := 0 } } ∧
    switch2_parse_stick_calibration (synth_stick_calibration 1 2 3 4 5 6) =
      some { x := { neutral := 1, negative := 5, positive := 3 },
             y := { neutral := 2, negative := 6, positive := 4 } } :=
  ⟨(switch2_parse_stick_calibration_amended.2.1 1 0 0 0 0 0 0 0 0
      (by decide) (by decide) (by decide) (by decide) (by decide) (by decide)
      (by decide) (by decide) (by decide) (by decide)).1,
   switch2_parse_stick_calibration_amended.2.2 1 2 3 4 5 6
      (by decide) (by decide) (by decide) (by decide) (by decide) (by decide)
      (by decide)⟩

/-- Claim C4: an 11-byte user-calibration block whose first two bytes,
read little-endian, differ from the magic 0xa1b2 leaves the session
unchanged regardless of the other 9 bytes; when the magic matches, the
remaining 9 bytes are handled exactly like a factory stick-calibration
block for the same stick slot. -/
theorem switch2_handle_flash_read_user_magic (ns2 : switch2_controller)
    (data : List Nat) (hlen : data.length = 11) :
    (data.getD 0 0 + 256 * data.getD 1 0 ≠ NS2_USER_CALIB_MAGIC →
      switch2_handle_flash_read ns2 NS2_FLASH_SIZE_USER_AXIS_CALIB
        NS2_FLASH_ADDR_USER_PRIMARY_CALIB data = ns2 ∧
      switch2_handle_flash_read ns2 NS2_FLASH_SIZE_USER_AXIS_CALIB
        NS2_FLASH_ADDR_USER_SECONDARY_CALIB data = ns2) ∧
    (data.getD 0 0 + 256 * data.getD 1 0 = NS2_USER_CALIB_MAGIC →
      switch2_handle_flash_read ns2 NS2_FLASH_SIZE_USER_AXIS_CALIB
        NS2_FLASH_ADDR_USER_PRIMARY_CALIB data =
        switch2_handle_flash_read ns2 NS2_FLASH_SIZE_FACTORY_AXIS_CALIB
          NS2_FLASH_ADDR_FACTORY_PRIMARY_CALIB (data.drop 2) ∧
      switch2_handle_flash_read ns2 NS2_FLASH_SIZE_USER_AXIS_CALIB
        NS2_FLASH_ADDR_USER_SECONDARY_CALIB data =
        switch2_handle_flash_read ns2 NS2_FLASH_SIZE_FACTORY_AXIS_CALIB
          NS2_FLASH_ADDR_FACTORY_SECONDARY_CALIB (data.drop 2)) := by
  constructor <;> intro hmagic <;>
    rw [List.getD_eq_getElem?_getD data 0 0, List.getD_eq_getElem?_getD data 1 0,
      NS2_USER_CALIB_MAGIC] at hmagic <;>
    constructor <;>
    simp [switch2_handle_flash_read, NS2_FLASH_ADDR_SERIAL,
      NS2_FLASH_ADDR_FACTORY_PRIMARY_CALIB, NS2_FLASH_ADDR_FACTORY_SECONDARY_CALIB,
      NS2_FLASH_ADDR_FACTORY_TRIGGER_CALIB, NS2_FLASH_ADDR_USER_PRIMARY_CALIB,
      NS2_FLASH_ADDR_USER_SECONDARY_CALIB, NS2_FLASH_SIZE_USER_AXIS_CALIB,
      NS2_FLASH_SIZE_FACTORY_AXIS_CALIB, NS2_FLASH_SIZE_SERIAL,
      NS2_FLASH_SIZE_FACTORY_TRIGGER_CALIB, NS2_USER_CALIB_MAGIC, hmagic]

/-- Witness for C4: an 11-byte all-zero block (magic mismatch) leaves the
fresh session unchanged; a block carrying the magic 0xb2 0xa1 followed by
a non-sentinel 9-byte block is decoded exactly as the factory decode of
those 9 bytes. -/
theorem switch2_handle_flash_read_user_magic_witness :
    (switch2_handle_flash_read switch2_controller_init NS2_FLASH_SIZE_USER_AXIS_CALIB
      NS2_FLASH_ADDR_USER_PRIMARY_CALIB (List.replicate 11 0) = switch2_controller_init) ∧
    (switch2_handle_flash_read switch2_controller_init NS2_FLASH_SIZE_USER_AXIS_CALIB
      NS2_FLASH_ADDR_USER_PRIMARY_CALIB [0xb2, 0xa1, 1, 0, 0, 0, 0, 0, 0, 0, 0] =
     switch2_handle_flash_read switch2_controller_init NS2_FLASH_SIZE_FACTORY_AXIS_CALIB
      NS2_FLASH_ADDR_FACTORY_PRIMARY_CALIB
      ([0xb2, 0xa1, 1, 0, 0, 0, 0, 0, 0, 0, 0].drop 2)) :=
  ⟨(switch2_handle_flash_read_user_magic switch2_controller_init (List.replicate 11 0)
      (by decide)).1 (by decide) |>.1,
   (switch2_handle_flash_read_user_magic switch2_controller_init
      [0xb2, 0xa1, 1, 0, 0, 0, 0, 0, 0, 0, 0] (by decide)).2 (by decide) |>.1⟩

/-- Claim C5: the axis transform agrees with the specification's formula
(calibrated piecewise-linear division by the negative or positive extent
around the measured neutral, fallback (raw - 2048) * 16, sign flip before
the clamp) and its result always lies in [-32768, 32767]. -/
theorem switch2_report_axis_matches_spec (calib : Option switch2_axis_calibration)
    (value : Int) (negate : Bool) :
    switch2_report_axis calib value negate = report_axis_spec calib value negate ∧
    NS2_AXIS_MIN ≤ switch2_report_axis calib value negate ∧
    switch2_report_axis calib value negate ≤ NS2_AXIS_MAX := by
  refine ⟨?_, ?_, ?_⟩
  · cases calib <;>
      simp [switch2_report_axis, report_axis_spec, NS2_AXIS_MAX, NS2_AXIS_MIN]
  · exact (clampInt_mem _ NS2_AXIS_MIN NS2_AXIS_MAX (by decide)).1
  · exact (clampInt_mem _ NS2_AXIS_MIN NS2_AXIS_MAX (by decide)).2

/-- The loop of switch2_init_controller never decreases init_step. -/
theorem switch2_init_loop_mono (sendRet : Nat → Int) (inputRet : Int) :
    ∀ fuel ns2, ns2.init_step ≤
      (switch2_init_loop sendRet inputRet fuel ns2).1.init_step := by
  intro fuel
  induction fuel with
  | zero => intro ns2; simp [switch2_init_loop]
  | succ n ih =>
    intro ns2
    unfold switch2_init_loop
    dsimp only
    split
    · split
      · simp
      · have h2 := ih { ns2 with init_step := ns2.init_step + 1 }
        simp at h2 ⊢
        omega
      · simp
    · simp

/-- One advance call never decreases init_step. -/
theorem switch2_init_controller_mono (sendRet : Nat → Int) (inputRet : Int)
    (ns2 : switch2_controller) :
    ns2.init_step ≤ (switch2_init_controller sendRet inputRet ns2).1.init_step := by
  unfold switch2_init_controller
  split
  · simp
  · split
    · simp
    · exact switch2_init_loop_mono sendRet inputRet _ ns2

/-- Claim C6: across any sequence of advance calls init_step never
decreases; an advance on a session already at NS2_INIT_DONE is a no-op
that returns 0 and sends nothing; an advance with the command-path handle
unbound (and initialization not yet complete, the case the Done no-op
does not already cover) returns -ENOTCONN, leaves the session unchanged
and sends nothing. -/
theorem switch2_init_controller_claims (sendRet : Nat → Int) (inputRet : Int) :
    (∀ n ns2, ns2.init_step ≤
      (switch2_init_iter sendRet inputRet n ns2).init_step) ∧
    (∀ ns2 : switch2_controller, ns2.init_step = NS2_INIT_DONE →
      switch2_init_controller sendRet inputRet ns2 = (ns2, 0, [])) ∧
    (∀ ns2 : switch2_controller, ns2.cfg = false → ns2.init_step ≠ NS2_INIT_DONE →
      switch2_init_controller sendRet inputRet ns2 = (ns2, ENOTCONN_RET, [])) := by
  refine ⟨?_, ?_, ?_⟩
  · intro n
    induction n with
    | zero => intro ns2; simp [switch2_init_iter]
    | succ m ih =>
      intro ns2
      unfold switch2_init_iter
      exact le_trans (switch2_init_controller_mono sendRet inputRet ns2)
        (ih (switch2_init_controller sendRet inputRet ns2).1)
  · intro ns2 h
    unfold switch2_init_controller
    rw [if_pos h]
  · intro ns2 hc h
    unfold switch2_init_controller
    rw [if_neg h, if_pos (by simp [hc])]

/-- Witness for C6: three advances from a finished session keep init_step
at NS2_INIT_DONE; advancing the finished session is a no-op returning 0;
advancing the fresh unbound session returns -ENOTCONN unchanged. -/
theorem switch2_init_controller_claims_witness :
    switch2_controller_done.init_step ≤
      (switch2_init_iter sendRet0 0 3 switch2_controller_done).init_step ∧
    switch2_init_controller sendRet0 0 switch2_controller_done =
      (switch2_controller_done, 0, []) ∧
    switch2_init_controller sendRet0 0 switch2_controller_init =
      (switch2_controller_init, ENOTCONN_RET, []) :=
  ⟨(switch2_init_controller_claims sendRet0 0).1 3 switch2_controller_done,
   (switch2_init_controller_claims sendRet0 0).2.1 switch2_controller_done (by decide),
   (switch2_init_controller_claims sendRet0 0).2.2 switch2_controller_init
     (by decide) (by decide)⟩

/-- Claim C7: an inbound frame shorter than 8 bytes is rejected with
-EINVAL before anything else happens; a flash-read reply shorter than 16
bytes, or shorter than 16 plus the declared read size (frame byte 8), is
rejected with -EINVAL without touching the calibration state; only when
all three checks pass is the payload handed to
switch2_handle_flash_read. -/
theorem switch2_receive_command_length_checks (sendRet : Nat → Int) (inputRet : Int)
    (mem : Nat → Nat) (length : Nat) (ns2 : switch2_controller) :
    (length < 8 →
      switch2_receive_command sendRet inputRet mem length ns2 = (ns2, EINVAL_RET)) ∧
    (8 ≤ length → mem 0 = NS2_CMD_FLASH → mem 3 = NS2_SUBCMD_FLASH_READ → length < 16 →
      switch2_receive_command sendRet inputRet mem length ns2 =
        (switch2_receive_pre_init sendRet inputRet ns2, EINVAL_RET)) ∧
    (mem 0 = NS2_CMD_FLASH → mem 3 = NS2_SUBCMD_FLASH_READ → 16 ≤ length →
      length < mem 8 + 16 →
      switch2_receive_command sendRet inputRet mem length ns2 =
        (switch2_receive_pre_init sendRet inputRet ns2, EINVAL_RET)) ∧
    (mem 0 = NS2_CMD_FLASH → mem 3 = NS2_SUBCMD_FLASH_READ → 16 ≤ length →
      mem 8 + 16 ≤ length →
      switch2_receive_command sendRet inputRet mem length ns2 =
        (switch2_handle_flash_read (switch2_receive_pre_init sendRet inputRet ns2)
          (mem 8) (mem 12 + 256 * mem 13 + 65536 * mem 14 + 16777216 * mem 15)
          ((List.range (mem 8)).map fun i => mem (16 + i)), 0)) := by
  refine ⟨?_, ?_, ?_, ?_⟩
  · intro h
    unfold switch2_receive_command
    rw [if_pos h]
  · intro h8 hc hs h16
    unfold switch2_receive_command
    rw [if_neg (show ¬ length < 8 by omega)]
    dsimp only
    rw [hc, hs, if_pos (rfl : NS2_CMD_FLASH = NS2_CMD_FLASH),
      if_pos (rfl : NS2_SUBCMD_FLASH_READ = NS2_SUBCMD_FLASH_READ),
      if_pos h16]
  · intro hc hs h16 hsz
    unfold switch2_receive_command
    rw [if_neg (show ¬ length < 8 by omega)]
    dsimp only
    rw [hc, hs, if_pos (rfl : NS2_CMD_FLASH = NS2_CMD_FLASH),
      if_pos (rfl : NS2_SUBCMD_FLASH_READ = NS2_SUBCMD_FLASH_READ),
      if_neg (show ¬ length < 16 by omega), if_pos hsz]
  · intro hc hs h16 hsz
    unfold switch2_receive_command
    rw [if_neg (show ¬ length < 8 by omega)]
    dsimp only
    rw [hc, hs, if_pos (rfl : NS2_CMD_FLASH = NS2_CMD_FLASH),
      if_pos (rfl : NS2_SUBCMD_FLASH_READ = NS2_SUBCMD_FLASH_READ),
      if_neg (show ¬ length < 16 by omega),
      if_neg (show ¬ length < mem 8 + 16 by omega)]

/-- Witness for C7 at concrete frames: a 5-byte frame is rejected; a
12-byte flash-read header is rejected; a 20-byte flash-read frame whose
declared size 50 exceeds the frame is rejected; the complete 25-byte
flash-read frame c8_frame is dispatched to switch2_handle_flash_read. -/
theorem switch2_receive_command_length_checks_witness :
    switch2_receive_command sendRet0 0 c7_mem 5 switch2_controller_done =
      (switch2_controller_done, EINVAL_RET) ∧
    switch2_receive_command sendRet0 0 c7_mem 12 switch2_controller_done =
      (switch2_receive_pre_init sendRet0 0 switch2_controller_done, EINVAL_RET) ∧
    switch2_receive_command sendRet0 0 c7_mem 20 switch2_controller_done =
      (switch2_receive_pre_init sendRet0 0 switch2_controller_done, EINVAL_RET) ∧
    switch2_receive_command sendRet0 0 c8_mem 25 switch2_controller_done =
      (switch2_handle_flash_read (switch2_receive_pre_init sendRet0 0 switch2_controller_done)
        (c8_mem 8) (c8_mem 12 + 256 * c8_mem 13 + 65536 * c8_mem 14 + 16777216 * c8_mem 15)
        ((List.range (c8_mem 8)).map fun i => c8_mem (16 + i)), 0) :=
  ⟨(switch2_receive_command_length_checks sendRet0 0 c7_mem 5 switch2_controller_done).1
      (by decide),
   (switch2_receive_command_length_checks sendRet0 0 c7_mem 12 switch2_controller_done).2.1
      (by decide) (by decide) (by decide) (by decide),
   (switch2_receive_command_length_checks sendRet0 0 c7_mem 20 switch2_controller_done).2.2.1
      (by decide) (by decide) (by decide) (by decide),
   (switch2_receive_command_length_checks sendRet0 0 c8_mem 25 switch2_controller_done).2.2.2
      (by decide) (by decide) (by decide) (by decide)⟩

/-- Claim C8 (amended): the axis transform applies a stored calibration
only when its neutral, negative and positive values are all nonzero; for
any partially-zero calibration it computes exactly the fixed linear
default it would use with no calibration at all.  (Stored calibrations
themselves are not constrained to be all-zero or all-nonzero; see the
counterexample.) -/
theorem switch2_report_axis_partial_fallback (c : switch2_axis_calibration)
    (value : Int) (negate : Bool) (h : ¬ axis_calib_present c) :
    switch2_report_axis (some c) value negate =
      switch2_report_axis none value negate := by
  unfold axis_calib_present at h
  unfold switch2_report_axis
  dsimp only
  rw [if_neg h]

/-- Witness for the amended C8 theorem at the partial calibration
(neutral 0, negative 1, positive 1) stored by the c8_frame reply. -/
theorem switch2_report_axis_partial_fallback_witness :
    switch2_report_axis
      (some { neutral := 0, negative := 1, positive := 1 }) 100 false =
      switch2_report_axis none 100 false :=
  switch2_report_axis_partial_fallback
    { neutral := 0, negative := 1, positive := 1 } 100 false (by decide)

/-- Claim C9 (amended): after set_intensity(0, 0) the next work-queue
tick always moves the rumble encoder to Idle: the last-emission timestamp
is reset to the zero sentinel and no further tick is scheduled.  From an
Idle (unscheduled) state the encoder emits nothing and changes nothing on
its own: any event sequence containing only ticks produces no packets.
(A further set_intensity call of any value, including zero, triggers one
more emission - see the counterexample - so packet silence lasts until
the next set_intensity call, not until the next nonzero one.) -/
theorem switch2_rumble_idle_amended :
    (∀ (st : switch2_rumble_state) (now : Nat),
      (switch2_rumble_run st [.set_intensity 0 0, .tick now]).1.last_rumble_work = 0 ∧
      (switch2_rumble_run st [.set_intensity 0 0, .tick now]).1.pending = false) ∧
    (∀ (st : switch2_rumble_state) (events : List switch2_rumble_event),
      st.pending = false → (∀ e ∈ events, rumble_event_is_tick e = true) →
      switch2_rumble_run st events = (st, [])) := by
  constructor
  · intro st now
    simp only [switch2_rumble_run, switch2_rumble_step, switch2_play_effect,
      switch2_rumble_work]
    by_cases hg : st.ctlr_type = NS2_CTLR_TYPE_GC <;>
      simp [hg] <;>
      by_cases hh : st.hdev <;>
      simp [hh]
  · intro st events
    revert st
    induction events with
    | nil => intro st hp hall; simp [switch2_rumble_run]
    | cons e rest ih =>
      intro st hp hall
      cases e with
      | set_intensity s w =>
        have := hall (.set_intensity s w) (by simp)
        simp [rumble_event_is_tick] at this
      | tick now =>
        have hstep : switch2_rumble_step st (.tick now) = (st, []) := by
          simp [switch2_rumble_step, hp]
        have hrest := ih st hp (fun e he => hall e (by simp [he]))
        simp [switch2_rumble_run, hstep, hrest]

/-- Witness for the amended C9 theorem: the Active state c9_active
reaches Idle on the tick after set_intensity(0, 0), and from the Idle
state so reached two further ticks emit nothing and change nothing. -/
theorem switch2_rumble_idle_amended_witness :
    ((switch2_rumble_run c9_active [.set_intensity 0 0, .tick 6]).1.last_rumble_work = 0 ∧
     (switch2_rumble_run c9_active [.set_intensity 0 0, .tick 6]).1.pending = false) ∧
    switch2_rumble_run
      { c9_active with sd_amplitude := 0, last_rumble_work := 0, pending := false }
      [.tick 7, .tick 11] =
      ({ c9_active with sd_amplitude := 0, last_rumble_work := 0, pending := false }, []) :=
  ⟨switch2_rumble_idle_amended.1 c9_active 6,
   switch2_rumble_idle_amended.2
     { c9_active with sd_amplitude := 0, last_rumble_work := 0, pending := false }
     [.tick 7, .tick 11] (by decide) (by decide)⟩

/-- One rumble event preserves the GameCube error-diffusion bounds:
error at most 65534 and amplitude at most 65535. -/
theorem switch2_rumble_step_bounds (st : switch2_rumble_state)
    (e : switch2_rumble_event) (h1 : st.sd_error ≤ 65534)
    (h2 : st.sd_amplitude ≤ 65535) :
    (switch2_rumble_step st e).1.sd_error ≤ 65534 ∧
    (switch2_rumble_step st e).1.sd_amplitude ≤ 65535 := by
  cases e with
  | set_intensity s w =>
    have hs : s % 65536 ≤ 65535 := by omega
    have hw : (w % 65536) >>> 1 ≤ 65535 := by
      rw [Nat.shiftRight_eq_div_pow]
      omega
    simp only [switch2_rumble_step, switch2_play_effect]
    split <;> simp <;> omega
  | tick now =>
    simp only [switch2_rumble_step]
    split
    · simp only [switch2_rumble_work]
      by_cases hh : st.hdev <;>
        by_cases hgc : st.ctlr_type = NS2_CTLR_TYPE_GC <;>
        by_cases ha : st.sd_amplitude = 0 <;>
        by_cases hl : st.sd_error < st.sd_amplitude <;>
        by_cases hz : st.hd_hi_amp = 0 ∧ st.hd_lo_amp = 0 <;>
        simp [hh, hgc, ha, hl, hz, apply_ite, U16_MAX] <;>
        simp_all <;>
        omega
    · exact ⟨h1, h2⟩

/-- Every state reachable by a rumble event sequence keeps the bounds. -/
theorem switch2_rumble_run_bounds :
    ∀ (events : List switch2_rumble_event) (st : switch2_rumble_state),
      st.sd_error ≤ 65534 → st.sd_amplitude ≤ 65535 →
      (switch2_rumble_run st events).1.sd_error ≤ 65534 ∧
      (switch2_rumble_run st events).1.sd_amplitude ≤ 65535 := by
  intro events
  induction events with
  | nil => intro st h1 h2; exact ⟨h1, h2⟩
  | cons e rest ih =>
    intro st h1 h2
    have hstep := switch2_rumble_step_bounds st e h1 h2
    simp only [switch2_rumble_run]
    exact ih (switch2_rumble_step st e).1 hstep.1 hstep.2

/-- Claim C10: in every state the GameCube rumble encoder reaches from a
fresh controller, the accumulated quantization error is at most 65534
(and the amplitude at most 65535); consequently, whenever the next tick
takes the error-increment branch (error below amplitude), the unreduced
16-bit sum error + (65535 - amplitude) is itself at most 65534, so the
uint16_t arithmetic never wraps modulo 2^16. -/
theorem switch2_gc_rumble_error_bound (events : List switch2_rumble_event) :
    (switch2_rumble_run switch2_gc_rumble_init events).1.sd_error ≤ 65534 ∧
    (switch2_rumble_run switch2_gc_rumble_init events).1.sd_amplitude ≤ 65535 ∧
    ((switch2_rumble_run switch2_gc_rumble_init events).1.sd_error <
        (switch2_rumble_run switch2_gc_rumble_init events).1.sd_amplitude →
      (switch2_rumble_run switch2_gc_rumble_init events).1.sd_error +
        (U16_MAX - (switch2_rumble_run switch2_gc_rumble_init events).1.sd_amplitude) ≤
        65534) := by
  have h := switch2_rumble_run_bounds events switch2_gc_rumble_init
    (by decide) (by decide)
  refine ⟨h.1, h.2, ?_⟩
  intro hlt
  unfold U16_MAX
  omega

/-- Witness for C10: after one set_intensity(40000, 0) the reachable
state has error 0 below amplitude 40000, and the no-wrap sum bound
holds there. -/
theorem switch2_gc_rumble_error_bound_witness :
    (switch2_rumble_run switch2_gc_rumble_init
      [.set_intensity 40000 0]).1.sd_error +
      (U16_MAX - (switch2_rumble_run switch2_gc_rumble_init
        [.set_intensity 40000 0]).1.sd_amplitude) ≤ 65534 :=
  (switch2_gc_rumble_error_bound [.set_intensity 40000 0]).2.2 (by decide)
